import Mathlib

/-!
Verification development for the content-negotiation and error-handling core of
the sanic_restplus repository (src/sanic_restplus/api.py).

The shallow embedding below translates the relevant parts of api.py into Lean.
Helper functions that live in repository files missing from src/ (utils.py:
unpack, best_match_accept_mimetype; representations.py: output_json) are
modelled from the specification and carry a doc comment saying so.  Values of
the host framework (sanic) that api.py consumes -- status-code tables, the
router data layout, exception objects -- are embedded as plain data.

Python exceptions are modelled with the Except monad: a function that can raise
returns Except Err A, and a raised exception is Except.error.
-/

namespace SanicRestplus

/-- A JSON-like python value: the bodies flowing through the pipeline.
Dictionaries keep insertion order, as python dicts do. -/
inductive PyVal where
  | pstr : String → PyVal
  | pnat : Nat → PyVal
  | pnone : PyVal
  | pdict : List (String × PyVal) → PyVal

/-- First-match association lookup, the behaviour of a python dict keyed by
strings (class names, urls, header names). -/
def assocFind {α : Type} (l : List (String × α)) (k : String) : Option α :=
  match l with
  | [] => none
  | (k2, v) :: rest => if k2 == k then some v else assocFind rest k

/-- Dictionary lookup on a PyVal; a non-dict has no keys. -/
def dictGet (v : PyVal) (k : String) : Option PyVal :=
  match v with
  | PyVal.pdict kvs => assocFind kvs k
  | _ => none

/-- A raised python exception as handle_error observes it: its exact class
(the registry key), whether it is an instance of the sanic HTTP-error family
(SanicException), the embedded status code, the optional message attribute,
the optional data attribute, and its str() rendering. -/
structure Err where
  cls : String
  isSanic : Bool
  status_code : Nat
  message : Option String
  data : Option PyVal
  asString : String

/-- The SanicException("Not Acceptable", 406) raised by make_response. -/
def notAcceptableErr : Err :=
  { cls := "SanicException", isSanic := true, status_code := 406,
    message := none, data := none, asString := "Not Acceptable" }

/-- The sanic ServerError(None) raised by the final make_response branch. -/
def serverErrorErr : Err :=
  { cls := "ServerError", isSanic := true, status_code := 500,
    message := none, data := none, asString := "None" }

/-- The NotImplementedError raised unconditionally by the first statement of
Api._help_on_404. -/
def notImplementedErr : Err :=
  { cls := "NotImplementedError", isSanic := false, status_code := 0,
    message := none, data := none,
    asString := "Help on 404 is not yet implemented for Sanic-RestPlus" }

/-- An AttributeError, raised when .get is taken on a non-dict body. -/
def attributeErr : Err :=
  { cls := "AttributeError", isSanic := false, status_code := 0,
    message := none, data := none, asString := "attribute error" }

/-- A NameError: Api.unauthorized references current_app, whose flask import
is commented out at the top of api.py, so the name is undefined. -/
def nameErrorErr : Err :=
  { cls := "NameError", isSanic := false, status_code := 0,
    message := none, data := none,
    asString := "name current_app is not defined" }

/-- The UnboundLocalError raised when ApiErrorHandler.response reads the name
e after the end of an except-as-e block has deleted it. -/
def unboundLocalErr : Err :=
  { cls := "UnboundLocalError", isSanic := false, status_code := 0,
    message := none, data := none,
    asString := "local variable e referenced before assignment" }

/-- StopIteration from next(iter(valid_methods)) on an empty method set. -/
def stopIterationErr : Err :=
  { cls := "StopIteration", isSanic := false, status_code := 0,
    message := none, data := none, asString := "StopIteration" }

/-- The NameError for the route variable left unbound when both router loops
of Api._dummy_router_get run zero iterations yet route_found is consulted. -/
def nameErrorRouteErr : Err :=
  { cls := "NameError", isSanic := false, status_code := 0,
    message := none, data := none, asString := "name route is not defined" }

/-- The InvalidUsage method-not-supported error built by Api._dummy_router_get,
carrying the valid_methods attribute it sets before raising. -/
def methodNotAllowedErr (validMethods : List String) : Err :=
  { cls := "InvalidUsage", isSanic := true, status_code := 405,
    message := none, data := none,
    asString := String.intercalate "," validMethods }

/-- A raw resource or handler return value before unpacking: a bare body, a
(body, status) pair, or a (body, status, headers) triple. -/
inductive RetVal where
  | single : PyVal → RetVal
  | withCode : PyVal → Nat → RetVal
  | full : PyVal → Nat → List (String × String) → RetVal

/-- Modelled from the spec: utils.unpack is not under src/.  Spec section 3,
unpacking rule for a raw return value: it may be (body), (body, status), or
(body, status, headers); missing status defaults to the given default code
(200 at the Output Wrapper, 500 where handle_error unpacks handler results),
missing headers default to empty. -/
def unpack (v : RetVal) (defaultCode : Nat) : PyVal × Nat × List (String × String) :=
  match v with
  | RetVal.single b => (b, defaultCode, [])
  | RetVal.withCode b c => (b, c, [])
  | RetVal.full b c h => (b, c, h)

/-- An error handler registered for an exception class: it receives the error
and returns a raw return value, or itself raises. -/
abbrev ErrHandler := Err → Except Err RetVal

/-- Media types are plain strings. -/
abbrev MediaType := String

/-- Lower-casing of a character list (structural, so that the kernel can
evaluate it on concrete inputs). -/
def lowerChars : List Char → List Char
  | [] => []
  | c :: rest => Char.toLower c :: lowerChars rest

/-- The characters of a media type before the first slash. -/
def mainTypeChars : List Char → List Char
  | [] => []
  | c :: rest => if c = '/' then [] else c :: mainTypeChars rest

/-- The remainder of a list after a given leading segment, when it starts with
that segment. -/
def dropPre : List Char → List Char → Option (List Char)
  | [], s => some s
  | _ :: _, [] => none
  | c :: cs, d :: ds => if c = d then dropPre cs ds else none

/-- The remainder of a list after the first occurrence of a separator, when
the separator occurs at all. -/
def afterFirst : List Char → List Char → Option (List Char)
  | sep, [] => dropPre sep []
  | sep, d :: ds =>
    match dropPre sep (d :: ds) with
    | some rest => some rest
    | none => afterFirst sep ds

/-- Case-insensitive header-name comparison (sanic response headers are a
case-insensitive dict). -/
def ciEq (a b : String) : Bool :=
  String.mk (lowerChars a.data) == String.mk (lowerChars b.data)

/-- Setting a key on a case-insensitive header dict: any entry with the same
name, in any casing, is replaced. -/
def setHeaderCI (hs : List (String × String)) (k v : String) : List (String × String) :=
  (k, v) :: hs.filter (fun kv => !(ciEq kv.1 k))

/-- Case-insensitive header lookup. -/
def headerGetCI (hs : List (String × String)) (k : String) : Option String :=
  (hs.find? (fun kv => ciEq kv.1 k)).map (fun kv => kv.2)

/-- Removal of the blacklisted Content-Length header in handle_error.  The
headers popped there come from a plain dict produced by unpack, so the pop is
case-sensitive, unlike response-header assignment. -/
def removeBlacklist (hs : List (String × String)) : List (String × String) :=
  hs.filter (fun kv => kv.1 != "Content-Length")

/-- The wildcard form of a media type: its main type followed by a star, for
example application/* for application/json. -/
def wildcardOf (s : String) : String :=
  String.mk (mainTypeChars s.data) ++ "/*"

/-- Modelled from the spec: the accept-entry-to-registry-key match of
best_match_accept_mimetype (utils.py, not under src/).  Spec section 4.1 step
3: a concrete accept entry matches an equal key, and wildcard entries (star
slash star, or maintype slash star) match any key, or any key with that main
type. -/
def mtMatches (a k : String) : Bool :=
  a == k || a == "*/*" || (a == wildcardOf a && wildcardOf k == a)

/-- Modelled from the spec: for each client-preferred media type, in order, the
first registry key it matches wins (spec section 4.1 steps 2 and 4: the list
is already ordered by descending quality weight). -/
def firstMatch (accept : List String) (keys : List MediaType) : Option MediaType :=
  match accept with
  | [] => none
  | a :: rest =>
    match keys.find? (fun k => mtMatches a k) with
    | some k => some k
    | none => firstMatch rest keys

/-- Modelled from the spec: utils.best_match_accept_mimetype is not under
src/.  Spec section 4.1 steps 4 and 5: the first registry key matching the
highest-weighted acceptable client preference wins; if no client preference
matches anything registered, fall back to the default media type if it is
itself registered or equals text/plain; otherwise the negotiation fails,
signalled here by none. -/
def best_match_accept_mimetype (accept : List String) (keys : List MediaType)
    (dflt : Option MediaType) : Option MediaType :=
  match firstMatch accept keys with
  | some m => some m
  | none =>
    match dflt with
    | some d => if keys.contains d || d == "text/plain" then some d else none
    | none => none

/-- An HTTP response: status code, headers, body. -/
structure Resp where
  status : Nat
  headers : List (String × String)
  body : PyVal

/-- A coarse str() used only by the hardcoded text/plain renderer; no claim
inspects its output. -/
def pyStr : PyVal → String
  | PyVal.pstr s => s
  | PyVal.pnat n => toString n
  | PyVal.pnone => "None"
  | PyVal.pdict _ => "dict"

/-- Modelled from the spec: the render dispatch contract of section 4.1 and
representations.output_json (representations.py, not under src/).  A render
function receives (request, data, status, headers), keeps the supplied status
and headers, puts the data in the body, and sets the Content-Type header to
its media type. -/
def render (mt : MediaType) (data : PyVal) (code : Nat)
    (headers : List (String × String)) : Resp :=
  { status := code, headers := setHeaderCI headers "Content-Type" mt, body := data }

/-- The sanic text() helper: a plain-text response with the given body string,
status and headers. -/
def textResp (s : String) (code : Nat) (headers : List (String × String)) : Resp :=
  { status := code, headers := headers, body := PyVal.pstr s }

/-- An incoming request as the core observes it: method, path, the Accept
header parsed and sorted by descending quality weight (a missing header is
represented by the single wildcard entry), and the host app config flag
ERROR_404_HELP (which app.config.get defaults to True). -/
structure Request where
  method : String
  path : String
  accept : List String
  cfgError404Help : Bool

/-- The state of one Api instance: the ordered representation registry keys,
the configured default media type, the error-handler registry keyed by exact
exception class, the optional default error handler, the catch_all_404s and
serve_challenge_on_401 flags, the endpoint ownership set, the optional
blueprint name, and the instance counter value. -/
structure ApiState where
  uid : Nat
  representations : List MediaType
  default_mediatype : Option MediaType
  error_handlers : List (String × ErrHandler)
  default_error_handler : Option ErrHandler
  catch_all_404s : Bool
  serve_challenge_on_401 : Bool
  endpoints : List String
  blueprint : Option String

/-- Api.make_response (api.py lines 356-382): negotiate a media type; none
means a SanicException("Not Acceptable", 406) is raised; a registered media
type renders through its representation and the Content-Type response header
is then set to it; an unregistered text/plain uses the hardcoded text
renderer; anything else raises ServerError(None).  The default passed to the
negotiation is the fallback_mediatype keyword when given, else the configured
default_mediatype. -/
def make_response (api : ApiState) (req : Request) (data : PyVal) (code : Nat)
    (headers : List (String × String)) (fallback_mediatype : Option MediaType) :
    Except Err Resp :=
  let dflt : Option MediaType :=
    match fallback_mediatype with
    | some m => some m
    | none => api.default_mediatype
  match best_match_accept_mimetype req.accept api.representations dflt with
  | none => Except.error notAcceptableErr
  | some mediatype =>
    if api.representations.contains mediatype then
      let resp := render mediatype data code headers
      Except.ok { resp with headers := setHeaderCI resp.headers "Content-Type" mediatype }
    else if mediatype == "text/plain" then
      let resp := textResp (pyStr data) code headers
      Except.ok { resp with headers := setHeaderCI resp.headers "Content-Type" "text/plain" }
    else
      Except.error serverErrorErr

/-- A raw resource result: either an already-formed response object, passed
through unchanged, or a value to unpack and negotiate. -/
inductive ResourceResult where
  | response : Resp → ResourceResult
  | value : RetVal → ResourceResult

/-- Api.output (api.py lines 338-354): a formed response passes through; any
other value is unpacked (missing status defaults to 200) and rendered by
make_response with no fallback media type. -/
def outputWrapper (api : ApiState) (req : Request) (res : ResourceResult) :
    Except Err Resp :=
  match res with
  | ResourceResult.response r => Except.ok r
  | ResourceResult.value v =>
    match unpack v 200 with
    | (data, code, hdrs) => make_response api req data code hdrs none

/-- COMMON_STATUS_CODES of the sanic dependency: the small table api.py
consults first (entries as shipped by sanic). -/
def commonStatus (code : Nat) : Option String :=
  if code = 200 then some "OK"
  else if code = 400 then some "Bad Request"
  else if code = 404 then some "Not Found"
  else if code = 500 then some "Internal Server Error"
  else none

/-- ALL_STATUS_CODES of the sanic dependency, restricted to the codes this
development exercises; codes outside the table yield none, modelling an
unknown code. -/
def allStatus (code : Nat) : Option String :=
  if code = 200 then some "OK"
  else if code = 400 then some "Bad Request"
  else if code = 401 then some "Unauthorized"
  else if code = 403 then some "Forbidden"
  else if code = 404 then some "Not Found"
  else if code = 405 then some "Method Not Allowed"
  else if code = 406 then some "Not Acceptable"
  else if code = 500 then some "Internal Server Error"
  else none

/-- The status-phrase lookup of the SanicException branch of handle_error:
COMMON_STATUS_CODES first, then ALL_STATUS_CODES. -/
def statusFor (code : Nat) : Option String :=
  match commonStatus code with
  | some s => some s
  | none => allStatus code

/-- getattr(e, "message", status): the message attribute when present, else
the status phrase, which may itself be missing (python None). -/
def msgVal (e : Err) (st : Option String) : PyVal :=
  match e.message with
  | some m => PyVal.pstr m
  | none =>
    match st with
    | some s => PyVal.pstr s
    | none => PyVal.pnone

/-- Handler-registry lookup by exact exception class. -/
def lookupHandler (reg : List (String × ErrHandler)) (cls : String) : Option ErrHandler :=
  assocFind reg cls

/-- The branch chain of Api.handle_error (api.py lines 670-695) that produces
(default_data, code, headers): an exact class match in the registry runs the
handler and unpacks its result with default code 500; else an instance of the
sanic HTTP-error family yields its embedded code and message-or-phrase; else a
registered default handler runs; else the generic 500 body.  A handler that
raises propagates. -/
def handleErrorCore (api : ApiState) (e : Err) :
    Except Err (PyVal × Nat × List (String × String)) :=
  match lookupHandler api.error_handlers e.cls with
  | some handler =>
    match handler e with
    | Except.error ex => Except.error ex
    | Except.ok result => Except.ok (unpack result 500)
  | none =>
    if e.isSanic then
      Except.ok (PyVal.pdict [("message", msgVal e (statusFor e.status_code))],
                 e.status_code, [])
    else
      match api.default_error_handler with
      | some handler =>
        match handler e with
        | Except.error ex => Except.error ex
        | Except.ok result => Except.ok (unpack result 500)
      | none =>
        Except.ok (PyVal.pdict
          [("message", PyVal.pstr ((commonStatus 500).getD e.asString))], 500, [])

/-- Line 697 of api.py: default_data gets a message key equal to str(e) when
the key is absent; a present key keeps its value.  Taking .get on a non-dict
raises AttributeError. -/
def setMessageDefault (v : PyVal) (s : String) : Except Err PyVal :=
  match v with
  | PyVal.pdict kvs =>
    if (assocFind kvs "message").isSome then Except.ok (PyVal.pdict kvs)
    else Except.ok (PyVal.pdict (kvs ++ [("message", PyVal.pstr s)]))
  | _ => Except.error attributeErr

/-- Lines 715-716 of api.py: the fallback media type used when handling a 406
with no configured default: the first registered representation key, or
text/plain when nothing is registered. -/
def fallbackFor406 (api : ApiState) : MediaType :=
  match api.representations with
  | [] => "text/plain"
  | m :: _ => m

/-- Api.unauthorized (api.py lines 857-865): with serve_challenge_on_401 the
method reads current_app, a name whose flask import is commented out, so it
raises NameError; otherwise the response is returned unchanged. -/
def unauthorized (api : ApiState) (resp : Resp) : Except Err Resp :=
  if api.serve_challenge_on_401 then Except.error nameErrorErr
  else Except.ok resp

/-- The tail of Api.handle_error after line 697 (api.py lines 698-726): pick
e.data over default_data when the attribute exists; on a 404 with the
ERROR_404_HELP config (default True) call _help_on_404, whose first statement
raises NotImplementedError (its argument data.get is evaluated first and
raises AttributeError on a non-dict body); on a 406 with no configured default
media type choose the fallback media type; pop the blacklisted Content-Length
header; render through make_response; and on a 401 apply unauthorized. -/
def handleErrorAfterCore (api : ApiState) (req : Request) (e : Err) (dd2 : PyVal)
    (code : Nat) (hdrs : List (String × String)) : Except Err Resp :=
  let data : PyVal :=
    match e.data with
    | some d => d
    | none => dd2
  let branched : Except Err (PyVal × Option MediaType) :=
    if code ≥ 500 then Except.ok (data, none)
    else if code = 404 ∧ req.cfgError404Help then
      match data with
      | PyVal.pdict _ => Except.error notImplementedErr
      | _ => Except.error attributeErr
    else if code = 406 ∧ api.default_mediatype = none then
      Except.ok (data, some (fallbackFor406 api))
    else Except.ok (data, none)
  match branched with
  | Except.error ex => Except.error ex
  | Except.ok (d2, fb) =>
    match make_response api req d2 code (removeBlacklist hdrs) fb with
    | Except.error ex => Except.error ex
    | Except.ok resp =>
      if code = 401 then unauthorized api resp else Except.ok resp

/-- Api.handle_error (api.py lines 658-726), assembled from its stages. -/
def handle_error (api : ApiState) (req : Request) (e : Err) : Except Err Resp :=
  match handleErrorCore api e with
  | Except.error ex => Except.error ex
  | Except.ok (dd, code, hdrs) =>
    match setMessageDefault dd e.asString with
    | Except.error ex => Except.error ex
    | Except.ok dd2 => handleErrorAfterCore api req e dd2 code hdrs

/-- The remainder of a string after the first occurrence of a separator, or
the whole string when the separator is absent: python s.split(sep, 1)[-1]. -/
def splitOnceRest (sep s : String) : String :=
  match afterFirst sep.data s.data with
  | some rest => String.mk rest
  | none => s

/-- Whether a string starts with the given leading string. -/
def startsWithB (s pre : String) : Bool :=
  (dropPre pre.data s.data).isSome

/-- The blueprint-name stripping of Api.owns_endpoint: with a blueprint, an
endpoint not starting with the blueprint name is rejected outright (none);
otherwise everything after the first blueprint-name-plus-dot is kept. -/
def stripBlueprint (api : ApiState) (endpoint : String) : Option String :=
  match api.blueprint with
  | some bpName =>
    if startsWithB endpoint bpName then some (splitOnceRest (bpName ++ ".") endpoint)
    else none
  | none => some endpoint

/-- Api.owns_endpoint (api.py lines 555-569): strip the blueprint prefix part
of the endpoint name when a blueprint is attached, then test membership in the
endpoint set of this instance. -/
def owns_endpoint (api : ApiState) (endpoint : String) : Bool :=
  match stripBlueprint api endpoint with
  | none => false
  | some ep => api.endpoints.contains ep

/-- One sanic route as Api._dummy_router_get consumes it: its name, methods,
url pattern (as a match predicate) and whether a handler is attached. -/
structure Route where
  name : String
  methods : List String
  patMatch : String → Bool
  handlerPresent : Bool

/-- The sanic router layout read by Api._dummy_router_get: static routes keyed
by exact url, dynamic routes bucketed by url hash (the bucket function is
pre-composed with url_hash here), and the always-check list. -/
structure Router where
  routes_static : List (String × Route)
  routes_dynamic : String → List Route
  routes_always_check : List Route

/-- The outcome of Api._dummy_router_get: a found route, a raised InvalidUsage
405 carrying the valid methods, a raised NotFound, or another python error. -/
inductive DummyGetResult where
  | found : Route → DummyGetResult
  | methodNotAllowed : List String → DummyGetResult
  | notFound : DummyGetResult
  | pyError : Err → DummyGetResult

/-- Api._dummy_router_get (api.py lines 571-607).  A static hit returns the
route, unless it lists methods and the request method is absent, which raises
the 405.  Otherwise the dynamic bucket and then the always-check list are
scanned for the first pattern match whose methods include the request method;
if neither loop breaks, a 405 carrying the methods of the last iterated route
is raised when some pattern matched, else NotFound.  When both loops iterated
zero times the route variable of the python code is unbound, a NameError. -/
def dummyRouterGet (router : Router) (method : String) (url : String) : DummyGetResult :=
  match assocFind router.routes_static url with
  | some route =>
    if route.methods != [] && !(route.methods.contains method) then
      DummyGetResult.methodNotAllowed route.methods
    else
      DummyGetResult.found route
  | none =>
    let dyn := router.routes_dynamic url
    match dyn.find? (fun r => r.patMatch url && r.methods.contains method) with
    | some r => DummyGetResult.found r
    | none =>
      match router.routes_always_check.find?
          (fun r => r.patMatch url && r.methods.contains method) with
      | some r => DummyGetResult.found r
      | none =>
        let routeFound := dyn.any (fun r => r.patMatch url)
          || router.routes_always_check.any (fun r => r.patMatch url)
        if routeFound then
          match router.routes_always_check.getLast?.orElse (fun _ => dyn.getLast?) with
          | some lastR => DummyGetResult.methodNotAllowed lastR.methods
          | none => DummyGetResult.pyError nameErrorRouteErr
        else DummyGetResult.notFound

/-- The probe method chosen in the InvalidUsage branch of
Api._should_use_fr_error_handler (api.py lines 630-637): the first of the
valid_methods carried by the 405 when that attribute exists; next(iter(...))
of an empty set is an uncaught StopIteration, none here; only when the
attribute is missing entirely does the code fall back to POST for an original
GET, else GET. -/
def probeMethod (validMethods : Option (List String)) (origMethod : String) :
    Option String :=
  match validMethods with
  | some (m :: _) => some m
  | some [] => none
  | none => some (if origMethod == "GET" then "POST" else "GET")

/-- The value Api._should_use_fr_error_handler hands back: a boolean, a route
object, or python None (from the bare except clause). -/
inductive FrRouteDecision where
  | bool : Bool → FrRouteDecision
  | route : Route → FrRouteDecision
  | nothing : FrRouteDecision

/-- Api._should_use_fr_error_handler (api.py lines 609-644).  The request-None
and missing-app guards of the python code return False; both are vacuous here
because every Request value carries its data.  A successful dummy resolution
returns the route.  An InvalidUsage 405 re-resolves with the probe method,
purely to learn which route would have matched, and returns the ownership test
on that route name; errors raised inside this except handler (a second 405, a
NotFound, StopIteration) propagate, as python handlers of one try statement do
not catch each other.  A NotFound returns catch_all_404s.  Anything else is
swallowed by the bare except, python None. -/
def should_use_fr_error_handler (api : ApiState) (router : Router)
    (req : Request) : Except Err FrRouteDecision :=
  match dummyRouterGet router req.method req.path with
  | DummyGetResult.found r => Except.ok (FrRouteDecision.route r)
  | DummyGetResult.methodNotAllowed vm =>
    match probeMethod (some vm) req.method with
    | none => Except.error stopIterationErr
    | some m =>
      match dummyRouterGet router m req.path with
      | DummyGetResult.found r2 =>
        Except.ok (FrRouteDecision.bool (owns_endpoint api r2.name))
      | DummyGetResult.methodNotAllowed vm2 =>
        Except.error (methodNotAllowedErr vm2)
      | DummyGetResult.notFound => Except.error
          { cls := "NotFound", isSanic := true, status_code := 404,
            message := none, data := none, asString := "not found" }
      | DummyGetResult.pyError ex => Except.error ex
  | DummyGetResult.notFound => Except.ok (FrRouteDecision.bool api.catch_all_404s)
  | DummyGetResult.pyError _ => Except.ok FrRouteDecision.nothing

/-- Api._has_fr_route (api.py lines 646-655): True passes through; a false or
None decision declines; a route object with a handler and a nonempty name is
tested for ownership. -/
def has_fr_route (api : ApiState) (router : Router) (req : Request) :
    Except Err Bool :=
  match should_use_fr_error_handler api router req with
  | Except.error ex => Except.error ex
  | Except.ok d =>
    Except.ok
      (match d with
       | FrRouteDecision.bool true => true
       | FrRouteDecision.bool false => false
       | FrRouteDecision.nothing => false
       | FrRouteDecision.route r =>
         if !r.handlerPresent || r.name == "" then false
         else owns_endpoint api r.name)

/-- ApiErrorHandler.response (api.py lines 885-902).  When the api owns the
route, handle_error is tried.  The python code catches a failure with
except Exception as e and then falls through to
original_handler.response(request, e); python 3 deletes the name bound by an
except-as clause when the block ends, so that final reference to e raises
UnboundLocalError instead of reaching the original handler.  When the api does
not own the route, the original handler responds to the untouched error.
Errors raised by the ownership test itself happen outside the try statement
and propagate. -/
def apiErrorHandlerResponse (api : ApiState) (router : Router)
    (origHandler : Request → Err → Resp) (req : Request) (e : Err) :
    Except Err Resp :=
  match has_fr_route api router req with
  | Except.error ex => Except.error ex
  | Except.ok true =>
    match handle_error api req e with
    | Except.ok r => Except.ok r
    | Except.error _ => Except.error unboundLocalErr
  | Except.ok false => Except.ok (origHandler req e)

/-- Python set add on the endpoint set. -/
def insertEndpoint (l : List String) (ep : String) : List String :=
  if l.contains ep then l else l ++ [ep]

/-- The collision-avoiding suffix loop of Api.default_endpoint (api.py lines
418-425): try base_2, base_3, ... until a name not yet in the endpoint set is
found.  The loop is bounded here by a fuel of one more than the set size,
which the pigeonhole principle makes sufficient. -/
def freshSuffix (endpoints : List String) (base : String) (sfx fuel : Nat) : String :=
  match fuel with
  | 0 => base ++ "_" ++ toString sfx
  | Nat.succ f =>
    let cand := base ++ "_" ++ toString sfx
    if endpoints.contains cand then freshSuffix endpoints base (sfx + 1) f else cand

/-- Api.default_endpoint (api.py lines 403-426).  The base argument stands for
camel_to_dash of the resource class name (utils.py, not under src/); a
resource outside the default namespace is prefixed with the namespace name and
an underscore; a collision with an existing endpoint gets a numeric suffix. -/
def default_endpoint (api : ApiState) (base : String) (nsPart : Option String) : String :=
  let ep : String :=
    match nsPart with
    | some ns => ns ++ "_" ++ base
    | none => base
  if api.endpoints.contains ep then
    freshSuffix api.endpoints ep 2 (api.endpoints.length + 1)
  else ep

/-- Api.register_resource (api.py lines 280-291): use the explicit endpoint
keyword when given and truthy, else the default endpoint; add it to this
endpoint set of this instance; the view-registration side effect on the app is
outside this model. -/
def register_resource (api : ApiState) (base : String) (nsPart : Option String)
    (explicitEp : Option String) : ApiState × String :=
  let endpoint : String :=
    match explicitEp with
    | some ep => if ep == "" then default_endpoint api base nsPart else ep
    | none => default_endpoint api base nsPart
  ({ api with endpoints := insertEndpoint api.endpoints endpoint }, endpoint)

/-- The built-in handler for mask ParseError (api.py lines 932-934). -/
def maskParseErrorHandler : ErrHandler := fun e =>
  Except.ok (RetVal.withCode
    (PyVal.pdict [("message", PyVal.pstr ("Mask parse error: " ++ e.asString))]) 400)

/-- The built-in handler for MaskError (api.py lines 937-939). -/
def maskErrorHandler : ErrHandler := fun e =>
  Except.ok (RetVal.withCode
    (PyVal.pdict [("message", PyVal.pstr ("Mask error: " ++ e.asString))]) 400)

/-- The error-handler registry as seeded by Api.__init__ (api.py lines
126-129). -/
def initialErrorHandlers : List (String × ErrHandler) :=
  [("ParseError", maskParseErrorHandler), ("MaskError", maskErrorHandler)]

/-- An Api instance as constructed by Api.__init__ with the given uid and the
default arguments, after init_app has registered the uid-suffixed specs
endpoint. -/
def apiWithApp (uid : Nat) : ApiState :=
  { uid := uid,
    representations := ["application/json"],
    default_mediatype := some "application/json",
    error_handlers := initialErrorHandlers,
    default_error_handler := none,
    catch_all_404s := false,
    serve_challenge_on_401 := false,
    endpoints := ["specs" ++ toString uid],
    blueprint := none }

/-- The four resolution rules of the spec, section 4.3. -/
inductive ErrRule where
  | exactMatch : ErrRule
  | httpFamily : ErrRule
  | defaultHandler : ErrRule
  | generic500 : ErrRule

/-- The position of a rule in the resolution order of the spec. -/
def ruleIdx : ErrRule → Nat
  | ErrRule.exactMatch => 0
  | ErrRule.httpFamily => 1
  | ErrRule.defaultHandler => 2
  | ErrRule.generic500 => 3

/-- Whether one resolution rule applies to an error, in the words of the spec:
an exact type match in the handler registry; is-a framework HTTP error; a
registered default handler; the generic fallback always applies. -/
def ruleApplies (api : ApiState) (e : Err) : ErrRule → Bool
  | ErrRule.exactMatch => (lookupHandler api.error_handlers e.cls).isSome
  | ErrRule.httpFamily => e.isSanic
  | ErrRule.defaultHandler => api.default_error_handler.isSome
  | ErrRule.generic500 => true

/-- The first applicable rule in the resolution order of the spec. -/
def firstRule (api : ApiState) (e : Err) : ErrRule :=
  if (lookupHandler api.error_handlers e.cls).isSome then ErrRule.exactMatch
  else if e.isSanic then ErrRule.httpFamily
  else if api.default_error_handler.isSome then ErrRule.defaultHandler
  else ErrRule.generic500

/-- The outcome each single rule produces on its own, following the spec:
the unpacked result of the matched handler; the embedded code with the message or
reason phrase; the unpacked result of the default handler; the generic 500 body.
The arms of inapplicable rules return an arbitrary placeholder, never reached
through the first applicable rule. -/
def ruleOutcome (api : ApiState) (e : Err) :
    ErrRule → Except Err (PyVal × Nat × List (String × String))
  | ErrRule.exactMatch =>
    match lookupHandler api.error_handlers e.cls with
    | some handler =>
      match handler e with
      | Except.error ex => Except.error ex
      | Except.ok result => Except.ok (unpack result 500)
    | none => Except.ok (PyVal.pnone, 0, [])
  | ErrRule.httpFamily =>
    Except.ok (PyVal.pdict [("message", msgVal e (statusFor e.status_code))],
               e.status_code, [])
  | ErrRule.defaultHandler =>
    match api.default_error_handler with
    | some handler =>
      match handler e with
      | Except.error ex => Except.error ex
      | Except.ok result => Except.ok (unpack result 500)
    | none => Except.ok (PyVal.pnone, 0, [])
  | ErrRule.generic500 =>
    Except.ok (PyVal.pdict
      [("message", PyVal.pstr ((commonStatus 500).getD e.asString))], 500, [])

/-- Whether the message entry of the resolved and message-defaulted body is a
string, computed on the stages of handle_error themselves. -/
def msgStringOk (api : ApiState) (e : Err) : Bool :=
  match handleErrorCore api e with
  | Except.error _ => false
  | Except.ok (dd, _, _) =>
    match setMessageDefault dd e.asString with
    | Except.error _ => false
    | Except.ok dd2 =>
      match dictGet dd2 "message" with
      | some (PyVal.pstr _) => true
      | _ => false

/-- Modelled from the claim wording of C7: re-attempt with POST when the
original method was GET, else GET. -/
def claimProbeMethod (origMethod : String) : String :=
  if origMethod == "GET" then "POST" else "GET"

end SanicRestplus

namespace SanicRestplus

/-- Whether no entry of an Accept list matches any registered key, wildcard
matching included. -/
def noAcceptMatch (accept : List String) (keys : List MediaType) : Bool :=
  accept.all (fun a => keys.all (fun k => !(mtMatches a k)))

/-- Boolean superset test on header lists: every pair of the second list
occurs in the first. -/
def headerSupersetB (hs sub : List (String × String)) : Bool :=
  sub.all (fun kv => hs.contains kv)

/-- Concrete inputs for claim C1: default configuration, an Accept header
matching nothing registered. -/
def apiC1w : ApiState := apiWithApp 11

def reqC1w : Request :=
  { method := "GET", path := "/x", accept := ["text/csv"], cfgError404Help := true }

/-- Two Api instances for claim C3, each registering a resource endpoint named
todo through register_resource. -/
def apiA3 : ApiState := (register_resource (apiWithApp 1) "todo" none none).1

def apiB3 : ApiState := (register_resource (apiWithApp 2) "todo" none none).1

def routeC3 : Route :=
  { name := "todo", methods := ["GET"], patMatch := fun _ => true, handlerPresent := true }

def routerC3 : Router :=
  { routes_static := [("/a", routeC3)], routes_dynamic := fun _ => [],
    routes_always_check := [] }

def reqC3 : Request :=
  { method := "GET", path := "/a", accept := ["application/json"], cfgError404Help := true }

/-- Concrete instances for the amended C3 witness: two instances with visibly
different endpoint sets. -/
def apiAW3 : ApiState := { apiWithApp 31 with endpoints := ["alpha"] }

def apiBW3 : ApiState := { apiWithApp 32 with endpoints := ["beta"] }

/-- Concrete inputs for claim C4: an owned route, a registered handler for
class Boom that itself raises KeyError. -/
def secondaryC4 : Err :=
  { cls := "KeyError", isSanic := false, status_code := 0, message := none,
    data := none, asString := "boom-key" }

def apiC4 : ApiState :=
  { apiWithApp 41 with
    error_handlers := ("Boom", fun _ => Except.error secondaryC4) :: initialErrorHandlers,
    endpoints := ["todo"] }

def routeC4 : Route :=
  { name := "todo", methods := ["GET"], patMatch := fun _ => true, handlerPresent := true }

def routerC4 : Router :=
  { routes_static := [("/a", routeC4)], routes_dynamic := fun _ => [],
    routes_always_check := [] }

def reqC4 : Request :=
  { method := "GET", path := "/a", accept := ["application/json"], cfgError404Help := true }

def errC4 : Err :=
  { cls := "Boom", isSanic := false, status_code := 0, message := none,
    data := none, asString := "boom" }

def hostRespC4 : Resp := { status := 500, headers := [], body := PyVal.pstr "host-default" }

def origC4 : Request → Err → Resp := fun _ _ => hostRespC4

/-- Concrete inputs for claim C5: an empty router, catch_all_404s on and off,
the sanic NotFound raised for an unmatched path, default config. -/
def apiC5 : ApiState := { apiWithApp 51 with catch_all_404s := true }

def apiC5off : ApiState := { apiC5 with catch_all_404s := false }

def routerC5 : Router :=
  { routes_static := [], routes_dynamic := fun _ => [], routes_always_check := [] }

def reqC5 : Request :=
  { method := "GET", path := "/nope", accept := ["application/json"], cfgError404Help := true }

def errC5 : Err :=
  { cls := "NotFound", isSanic := true, status_code := 404, message := none,
    data := none, asString := "Requested URL /nope not found" }

def hostRespC5 : Resp := { status := 404, headers := [], body := PyVal.pstr "host-404" }

def origC5 : Request → Err → Resp := fun _ _ => hostRespC5

/-- Concrete inputs for claim C6: a resource result that supplies its own
Content-Type header. -/
def apiC6 : ApiState := apiWithApp 61

def reqC6 : Request :=
  { method := "GET", path := "/a", accept := ["application/json"], cfgError404Help := true }

def vC6 : RetVal :=
  RetVal.full (PyVal.pdict [("a", PyVal.pnat 1)]) 200 [("Content-Type", "text/csv")]

def respC6 : Resp :=
  { status := 200, headers := [("Content-Type", "application/json")],
    body := PyVal.pdict [("a", PyVal.pnat 1)] }

def apiC6w : ApiState := apiWithApp 62

def reqC6w : Request :=
  { method := "GET", path := "/a", accept := ["application/json"], cfgError404Help := true }

def vW6 : RetVal := RetVal.full (PyVal.pdict [("a", PyVal.pnat 1)]) 201 [("X-Foo", "1")]

def respW6 : Resp :=
  { status := 201, headers := [("Content-Type", "application/json"), ("X-Foo", "1")],
    body := PyVal.pdict [("a", PyVal.pnat 1)] }

/-- Concrete inputs for claim C7: a route answering only PUT, probed after a
GET request hit the 405. -/
def routeC7 : Route :=
  { name := "w", methods := ["PUT"], patMatch := fun _ => true, handlerPresent := true }

def routerC7 : Router :=
  { routes_static := [("/w", routeC7)], routes_dynamic := fun _ => [],
    routes_always_check := [] }

def reqC7 : Request :=
  { method := "GET", path := "/w", accept := ["application/json"], cfgError404Help := true }

def apiC7 : ApiState := { apiWithApp 71 with endpoints := ["w"] }

/-- Concrete inputs for claim C8: an unregistered, non-sanic error carrying a
data attribute without a message entry. -/
def apiC8 : ApiState := apiWithApp 81

def reqC8 : Request :=
  { method := "GET", path := "/a", accept := ["application/json"], cfgError404Help := true }

def errC8 : Err :=
  { cls := "Boom", isSanic := false, status_code := 0, message := none,
    data := some (PyVal.pdict [("foo", PyVal.pstr "bar")]), asString := "boom" }

def respC8 : Resp :=
  { status := 500, headers := [("Content-Type", "application/json")],
    body := PyVal.pdict [("foo", PyVal.pstr "bar")] }

def apiC8w : ApiState := apiWithApp 82

def reqC8w : Request :=
  { method := "GET", path := "/a", accept := ["application/json"], cfgError404Help := true }

def errC8w : Err :=
  { cls := "Boom", isSanic := false, status_code := 0, message := none,
    data := none, asString := "boom" }

/-- Concrete inputs for claim C9: a sanic 400 carrying a data attribute with
an extra field and no message entry. -/
def apiC9 : ApiState := apiWithApp 91

def reqC9 : Request :=
  { method := "GET", path := "/a", accept := ["application/json"], cfgError404Help := true }

def errC9 : Err :=
  { cls := "InvalidUsage", isSanic := true, status_code := 400, message := none,
    data := some (PyVal.pdict [("foo", PyVal.pstr "bar")]), asString := "bad" }

def respC9 : Resp :=
  { status := 400, headers := [("Content-Type", "application/json")],
    body := PyVal.pdict [("foo", PyVal.pstr "bar")] }

def apiC9w : ApiState := apiWithApp 92

def reqC9w : Request :=
  { method := "GET", path := "/a", accept := ["application/json"], cfgError404Help := true }

def errC9w : Err :=
  { cls := "InvalidUsage", isSanic := true, status_code := 400, message := none,
    data := none, asString := "bad" }

def respC9w : Resp :=
  { status := 400, headers := [("Content-Type", "application/json")],
    body := PyVal.pdict [("message", PyVal.pstr "Bad Request")] }

/-- Concrete inputs for claim C10: no configured default media type, a 406 in
flight. -/
def apiC10w : ApiState := { apiWithApp 101 with default_mediatype := none }

def reqC10w : Request :=
  { method := "GET", path := "/x", accept := ["text/csv"], cfgError404Help := true }

/-- Membership gives a true Boolean contains on string lists. -/
theorem contains_of_mem {l : List String} {a : String} (h : a ∈ l) :
    l.contains a = true :=
  List.elem_iff.mpr h

/-- A media type produced by firstMatch is a registry key. -/
theorem firstMatch_mem {accept : List String} {keys : List MediaType} {m : MediaType}
    (h : firstMatch accept keys = some m) : keys.contains m = true := by
  induction accept with
  | nil => simp [firstMatch] at h
  | cons a rest ih =>
    unfold firstMatch at h
    cases hf : keys.find? (fun k => mtMatches a k) with
    | some k =>
      rw [hf] at h
      cases h
      exact contains_of_mem (List.mem_of_find?_eq_some hf)
    | none =>
      rw [hf] at h
      exact ih h

/-- When no accept entry matches any key, firstMatch yields nothing. -/
theorem firstMatch_none {accept : List String} {keys : List MediaType}
    (h : noAcceptMatch accept keys = true) : firstMatch accept keys = none := by
  induction accept with
  | nil => rfl
  | cons a rest ih =>
    unfold noAcceptMatch at h
    rw [List.all_cons, Bool.and_eq_true] at h
    obtain ⟨h1, h2⟩ := h
    have hf : keys.find? (fun k => mtMatches a k) = none := by
      apply List.find?_eq_none.mpr
      intro x hx
      have hx2 := List.all_eq_true.mp h1 x hx
      simp at hx2
      simp [hx2]
    unfold firstMatch
    rw [hf]
    exact ih h2

/-- A pair with a different (case-insensitive) name survives a header set. -/
theorem mem_setHeaderCI {hs : List (String × String)} {kv : String × String}
    {k v : String} (h1 : kv ∈ hs) (h2 : ciEq kv.1 k = false) :
    kv ∈ setHeaderCI hs k v := by
  unfold setHeaderCI
  exact List.mem_cons_of_mem _ (List.mem_filter.mpr ⟨h1, by simp [h2]⟩)

/-- Setting a header makes it the value found for that name. -/
theorem headerGetCI_set (hs : List (String × String)) (k v : String) :
    headerGetCI (setHeaderCI hs k v) k = some v := by
  unfold headerGetCI setHeaderCI
  simp [List.find?_cons, ciEq]

/-- With a registered default media type, make_response succeeds and keeps the
status and the body it was given. -/
theorem make_response_char (api : ApiState) (req : Request) (data : PyVal)
    (code : Nat) (hdrs : List (String × String)) (dm : MediaType)
    (h1 : api.default_mediatype = some dm)
    (h2 : api.representations.contains dm = true) :
    ∃ r, make_response api req data code hdrs none = Except.ok r ∧
      r.status = code ∧ r.body = data := by
  unfold make_response best_match_accept_mimetype
  cases hf : firstMatch req.accept api.representations with
  | some m =>
    have hm : api.representations.contains m = true := firstMatch_mem hf
    simp only [hm, if_true]
    exact ⟨_, rfl, rfl, rfl⟩
  | none =>
    simp only [h1, h2, Bool.true_or, if_true]
    exact ⟨_, rfl, rfl, rfl⟩

/-- Whatever make_response returns with a registered default and no fallback
keeps the status and body it was given. -/
theorem make_response_body (api : ApiState) (req : Request) (data : PyVal)
    (code : Nat) (hdrs : List (String × String)) (dm : MediaType) (r : Resp)
    (h1 : api.default_mediatype = some dm)
    (h2 : api.representations.contains dm = true)
    (h : make_response api req data code hdrs none = Except.ok r) :
    r.status = code ∧ r.body = data := by
  unfold make_response best_match_accept_mimetype at h
  cases hf : firstMatch req.accept api.representations with
  | some m =>
    have hm : api.representations.contains m = true := firstMatch_mem hf
    rw [hf] at h
    simp only [hm, if_true] at h
    cases h
    exact ⟨rfl, rfl⟩
  | none =>
    rw [hf] at h
    simp only [h1, h2, Bool.true_or, if_true] at h
    cases h
    exact ⟨rfl, rfl⟩

/-- With a usable fallback (registered or text/plain), make_response succeeds. -/
theorem make_response_usable (api : ApiState) (req : Request) (data : PyVal)
    (code : Nat) (hdrs : List (String × String)) (fb : MediaType)
    (h : (api.representations.contains fb || fb == "text/plain") = true) :
    ∃ r, make_response api req data code hdrs (some fb) = Except.ok r := by
  unfold make_response best_match_accept_mimetype
  cases hf : firstMatch req.accept api.representations with
  | some m =>
    have hm : api.representations.contains m = true := firstMatch_mem hf
    simp only [hm, if_true]
    exact ⟨_, rfl⟩
  | none =>
    simp only [h, if_true]
    by_cases hc : api.representations.contains fb = true
    · simp only [hc, if_true]
      exact ⟨_, rfl⟩
    · have hc2 : api.representations.contains fb = false := by simpa using hc
      have htp : (fb == "text/plain") = true := by
        rw [hc2, Bool.false_or] at h
        exact h
      simp only [hc2, htp, Bool.false_eq_true, if_false, if_true]
      exact ⟨_, rfl⟩

/-- The 406 fallback media type is always usable. -/
theorem fallbackFor406_usable (api : ApiState) :
    (api.representations.contains (fallbackFor406 api)
      || fallbackFor406 api == "text/plain") = true := by
  unfold fallbackFor406
  cases hr : api.representations with
  | nil => simp
  | cons m rest => simp [List.contains_cons]

end SanicRestplus

namespace SanicRestplus

/-- C1: for every request and data/status/headers triple whose Accept entries
match no registered representation, make_response falls back to the configured
default media type exactly when that default is registered or equals
text/plain (the response is then rendered with it as Content-Type), and
otherwise fails with the Not Acceptable SanicException carrying status 406,
never another error. -/
theorem claim_c1_negotiation_fallback (api : ApiState) (req : Request)
    (data : PyVal) (code : Nat) (hdrs : List (String × String))
    (hnm : noAcceptMatch req.accept api.representations = true) :
    (∀ d, api.default_mediatype = some d →
        (api.representations.contains d || d == "text/plain") = true →
        ∃ r, make_response api req data code hdrs none = Except.ok r ∧
          headerGetCI r.headers "Content-Type" = some d) ∧
    (∀ d, api.default_mediatype = some d →
        (api.representations.contains d || d == "text/plain") = false →
        make_response api req data code hdrs none = Except.error notAcceptableErr) ∧
    (api.default_mediatype = none →
      make_response api req data code hdrs none = Except.error notAcceptableErr) := by
  have hf : firstMatch req.accept api.representations = none := firstMatch_none hnm
  refine ⟨?_, ?_, ?_⟩
  · intro d hd hu
    unfold make_response best_match_accept_mimetype
    simp only [hf, hd, hu, if_true]
    by_cases hc : api.representations.contains d = true
    · simp only [hc, if_true]
      exact ⟨_, rfl, headerGetCI_set _ _ _⟩
    · have hc2 : api.representations.contains d = false := by simpa using hc
      have htp : (d == "text/plain") = true := by
        rw [hc2, Bool.false_or] at hu
        exact hu
      have hde : d = "text/plain" := by simpa using htp
      simp only [hc2, htp, Bool.false_eq_true, if_false, if_true]
      refine ⟨_, rfl, ?_⟩
      rw [headerGetCI_set, hde]
  · intro d hd hu
    unfold make_response best_match_accept_mimetype
    simp only [hf, hd, hu]
    rfl
  · intro hd
    unfold make_response best_match_accept_mimetype
    simp only [hf, hd]

/-- Witness for C1: Accept text/csv against a registry holding only
application/json, whose registered default then carries the response. -/
theorem claim_c1_witness :
    ∃ r, make_response apiC1w reqC1w (PyVal.pdict []) 200 [] none = Except.ok r ∧
      headerGetCI r.headers "Content-Type" = some "application/json" :=
  (claim_c1_negotiation_fallback apiC1w reqC1w (PyVal.pdict []) 200 [] (by decide)).1
    "application/json" rfl (by decide)

/-- C2: handle_error resolves every error by exactly one rule, the first
applicable one in the order exact-type match, sanic HTTP family, default
handler, generic 500; its produced data, code and headers equal that single
own outcome of that rule, and no earlier rule was applicable. -/
theorem claim_c2_resolution_order (api : ApiState) (e : Err) :
    handleErrorCore api e = ruleOutcome api e (firstRule api e) ∧
    (∀ rule : ErrRule, ruleIdx rule < ruleIdx (firstRule api e) →
      ruleApplies api e rule = false) := by
  constructor
  · unfold handleErrorCore firstRule ruleOutcome
    cases hl : lookupHandler api.error_handlers e.cls with
    | some h => simp [hl]
    | none =>
      cases hs : e.isSanic with
      | true => simp [hl, hs]
      | false =>
        cases hd : api.default_error_handler with
        | some h => simp [hl, hs, hd]
        | none => simp [hl, hs, hd]
  · intro rule hlt
    cases hl : lookupHandler api.error_handlers e.cls with
    | some h =>
      rw [firstRule] at hlt
      simp only [hl, Option.isSome_some, if_true, ruleIdx] at hlt
      exact absurd hlt (Nat.not_lt_zero _)
    | none =>
      cases hs : e.isSanic with
      | true =>
        rw [firstRule] at hlt
        simp only [hl, hs, Option.isSome_none, Bool.false_eq_true, if_false,
          if_true, ruleIdx] at hlt
        cases rule with
        | exactMatch => simp [ruleApplies, hl]
        | httpFamily => simp [ruleIdx] at hlt
        | defaultHandler => simp [ruleIdx] at hlt
        | generic500 => simp [ruleIdx] at hlt
      | false =>
        cases hd : api.default_error_handler with
        | some h =>
          rw [firstRule] at hlt
          simp only [hl, hs, hd, Option.isSome_none, Option.isSome_some,
            Bool.false_eq_true, if_false, if_true, ruleIdx] at hlt
          cases rule with
          | exactMatch => simp [ruleApplies, hl]
          | httpFamily => simp [ruleApplies, hs]
          | defaultHandler => simp [ruleIdx] at hlt
          | generic500 => simp [ruleIdx] at hlt
        | none =>
          cases rule with
          | exactMatch => simp [ruleApplies, hl]
          | httpFamily => simp [ruleApplies, hs]
          | defaultHandler => simp [ruleApplies, hd]
          | generic500 =>
            rw [firstRule] at hlt
            simp only [hl, hs, hd, Option.isSome_none, Bool.false_eq_true,
              if_false, ruleIdx] at hlt
            omega

end SanicRestplus

namespace SanicRestplus

/-- C3 counterexample: two distinct Api instances each register a resource
endpoint named todo; the endpoint is registered under instance A, yet the
error router of instance B claims it, so the ownership sets are not disjoint
and the claimed never-claims property is false. -/
theorem claim_c3_counterexample :
    apiA3.uid ≠ apiB3.uid ∧
    apiA3.endpoints.contains "todo" = true ∧
    apiB3.endpoints.contains "todo" = true ∧
    has_fr_route apiB3 routerC3 reqC3 = Except.ok true := by
  refine ⟨by decide, by decide, by decide, by rfl⟩

/-- C3 amended: an endpoint registered under one instance is never claimed by
the membership test of another instance whose own endpoint set does not
contain it (after stripping the blueprint name of that instance); disjointness of
the two sets themselves is not guaranteed by the code. -/
theorem claim_c3_amended (A B : ApiState) (ep : String)
    (h1 : A.endpoints.contains ep = true)
    (h2 : ∀ s, stripBlueprint B ep = some s → B.endpoints.contains s = false) :
    owns_endpoint B ep = false := by
  unfold owns_endpoint
  cases hs : stripBlueprint B ep with
  | none => rfl
  | some s => exact h2 s hs

/-- Witness for the amended C3: endpoint alpha lives in instance A only, and
instance B does not own it. -/
theorem claim_c3_witness : owns_endpoint apiBW3 "alpha" = false := by
  refine claim_c3_amended apiAW3 apiBW3 "alpha" (by decide) ?_
  intro s hs
  have h0 : some "alpha" = some s := hs
  injection h0 with h0
  cases h0
  rfl

/-- C4: with an owned route and a registered handler that itself raises, the
error hook does not fall back to the original handler: the python 3 deletion
of the except-as-bound name makes the final reference to e raise
UnboundLocalError, which propagates -- the claimed swallow-and-fall-back
behaviour does not happen, although the code comment and docstring promise
it. -/
theorem claim_c4_secondary_exception_bug :
    has_fr_route apiC4 routerC4 reqC4 = Except.ok true ∧
    handle_error apiC4 reqC4 errC4 = Except.error secondaryC4 ∧
    apiErrorHandlerResponse apiC4 routerC4 origC4 reqC4 errC4 =
      Except.error unboundLocalErr := by
  refine ⟨by rfl, by rfl, by rfl⟩

/-- C5: with catch_all_404s on and the default ERROR_404_HELP config, the api
claims the unmatched path but handle_error raises NotImplementedError out of
the _help_on_404 stub, and the error hook then raises UnboundLocalError, so
the client never receives the claimed 404-with-message body; with the flag
off the api declines and the host default response is returned unchanged. -/
theorem claim_c5_catch_all_404_bug :
    has_fr_route apiC5 routerC5 reqC5 = Except.ok true ∧
    handle_error apiC5 reqC5 errC5 = Except.error notImplementedErr ∧
    apiErrorHandlerResponse apiC5 routerC5 origC5 reqC5 errC5 =
      Except.error unboundLocalErr ∧
    apiErrorHandlerResponse apiC5off routerC5 origC5 reqC5 errC5 =
      Except.ok hostRespC5 := by
  refine ⟨by rfl, by rfl, by rfl, by rfl⟩

end SanicRestplus

namespace SanicRestplus

/-- C6 counterexample: a resource returning (body, 200, Content-Type text/csv)
gets a response whose header set is not a superset of the supplied headers
minus the blacklist, because make_response overwrites Content-Type with the
negotiated media type; the claimed superset property is false. -/
theorem claim_c6_counterexample :
    outputWrapper apiC6 reqC6 (ResourceResult.value vC6) = Except.ok respC6 ∧
    respC6.status = 200 ∧
    headerSupersetB respC6.headers
      (removeBlacklist [("Content-Type", "text/csv")]) = false := by
  refine ⟨by rfl, by rfl, by rfl⟩

/-- C6 amended: for every resource return value of the three tuple shapes, the
Output Wrapper response keeps the supplied status (200 when absent) and its
header set contains every supplied header that is neither blacklisted
(Content-Length) nor a Content-Type entry; Content-Type itself is set to the
negotiated media type. -/
theorem claim_c6_amended (api : ApiState) (req : Request) (v : RetVal) (r : Resp)
    (h : outputWrapper api req (ResourceResult.value v) = Except.ok r) :
    r.status = (unpack v 200).2.1 ∧
    ∀ kv ∈ (unpack v 200).2.2, ciEq kv.1 "Content-Type" = false →
      kv.1 ≠ "Content-Length" → kv ∈ r.headers := by
  rcases hu : unpack v 200 with ⟨data, code, hdrs⟩
  unfold outputWrapper at h
  simp only [hu] at h
  unfold make_response at h
  simp only [] at h
  cases hb : best_match_accept_mimetype req.accept api.representations
      api.default_mediatype with
  | none =>
    rw [hb] at h
    cases h
  | some mt =>
    rw [hb] at h
    by_cases hc : api.representations.contains mt = true
    · simp only [hc, if_true] at h
      cases h
      refine ⟨rfl, ?_⟩
      intro kv hkv hct _
      exact mem_setHeaderCI (mem_setHeaderCI hkv hct) hct
    · have hc2 : api.representations.contains mt = false := by simpa using hc
      simp only [hc2, Bool.false_eq_true, if_false] at h
      by_cases ht : (mt == "text/plain") = true
      · simp only [ht, if_true] at h
        cases h
        refine ⟨rfl, ?_⟩
        intro kv hkv hct _
        exact mem_setHeaderCI hkv hct
      · have ht2 : (mt == "text/plain") = false := by simpa using ht
        simp only [ht2, Bool.false_eq_true, if_false] at h
        cases h

/-- Witness for the amended C6: a (body, 201, X-Foo 1) return keeps status 201
and the X-Foo header. -/
theorem claim_c6_witness :
    respW6.status = 201 ∧ ("X-Foo", "1") ∈ respW6.headers := by
  have h := claim_c6_amended apiC6w reqC6w vW6 respW6 (by rfl)
  exact ⟨h.1, h.2 ("X-Foo", "1") (by decide) (by rfl) (by decide)⟩

/-- C7 counterexample: a GET against a route answering only PUT re-probes with
PUT, the first advertised valid method, not with the POST the claim states;
probing with POST as claimed would raise the 405 again instead of discovering
the endpoint, while the implemented probe completes the ownership test. -/
theorem claim_c7_counterexample :
    probeMethod (some ["PUT"]) "GET" = some "PUT" ∧
    claimProbeMethod "GET" = "POST" ∧
    probeMethod (some ["PUT"]) "GET" ≠ some (claimProbeMethod "GET") ∧
    dummyRouterGet routerC7 "POST" "/w" = DummyGetResult.methodNotAllowed ["PUT"] ∧
    should_use_fr_error_handler apiC7 routerC7 reqC7 =
      Except.ok (FrRouteDecision.bool true) := by
  refine ⟨by rfl, by rfl, by decide, by rfl, by rfl⟩

/-- C7 amended: on a 405 whose error advertises a nonempty valid-method set,
the ownership test re-attempts route resolution with the first advertised
method (the GET-to-POST swap applies only when the attribute is missing), and
applies the normal endpoint-ownership membership test to the name of the
route discovered that way. -/
theorem claim_c7_amended (api : ApiState) (router : Router) (req : Request)
    (vm : List String) (r2 : Route)
    (h1 : dummyRouterGet router req.method req.path =
      DummyGetResult.methodNotAllowed vm)
    (h2 : vm ≠ [])
    (h3 : dummyRouterGet router (vm.headD "") req.path = DummyGetResult.found r2) :
    should_use_fr_error_handler api router req =
      Except.ok (FrRouteDecision.bool (owns_endpoint api r2.name)) ∧
    probeMethod (some vm) req.method = some (vm.headD "") := by
  cases vm with
  | nil => exact absurd rfl h2
  | cons m rest =>
    refine ⟨?_, rfl⟩
    unfold should_use_fr_error_handler
    rw [h1]
    have hm : (m :: rest).headD "" = m := rfl
    rw [hm] at h3
    simp only [probeMethod]
    rw [h3]

/-- Witness for the amended C7: the concrete PUT-only route, probed after a
GET, yields the ownership answer for its endpoint name. -/
theorem claim_c7_witness :
    should_use_fr_error_handler apiC7 routerC7 reqC7 =
      Except.ok (FrRouteDecision.bool (owns_endpoint apiC7 "w")) := by
  have h := claim_c7_amended apiC7 routerC7 reqC7 ["PUT"] routeC7
    (by rfl) (by decide) (by rfl)
  exact h.1

end SanicRestplus

namespace SanicRestplus

/-- Whatever a successful handleErrorAfterCore returns, with a registered
default media type and no data attribute on the error, keeps the resolved
status and the message-defaulted body. -/
theorem afterCore_char (api : ApiState) (req : Request) (e : Err) (dd2 : PyVal)
    (code : Nat) (hdrs : List (String × String)) (dm : MediaType) (r : Resp)
    (h1 : api.default_mediatype = some dm)
    (h2 : api.representations.contains dm = true)
    (h3 : e.data = none)
    (h : handleErrorAfterCore api req e dd2 code hdrs = Except.ok r) :
    r.status = code ∧ r.body = dd2 := by
  unfold handleErrorAfterCore at h
  simp only [h3] at h
  have finish :
      (match make_response api req dd2 code (removeBlacklist hdrs) none with
        | Except.error ex => Except.error ex
        | Except.ok resp =>
          if code = 401 then unauthorized api resp else Except.ok resp) =
        Except.ok r →
      r.status = code ∧ r.body = dd2 := by
    intro hh
    cases hmr : make_response api req dd2 code (removeBlacklist hdrs) none with
    | error ex =>
      rw [hmr] at hh
      simp only [] at hh
      cases hh
    | ok resp =>
      rw [hmr] at hh
      simp only [] at hh
      have hbody := make_response_body api req dd2 code (removeBlacklist hdrs) dm resp h1 h2 hmr
      by_cases h401 : code = 401
      · rw [if_pos h401] at hh
        unfold unauthorized at hh
        by_cases hch : api.serve_challenge_on_401 = true
        · rw [if_pos hch] at hh
          cases hh
        · rw [if_neg hch] at hh
          cases hh
          exact hbody
      · rw [if_neg h401] at hh
        cases hh
        exact hbody
  by_cases hb1 : code ≥ 500
  · rw [if_pos hb1] at h
    simp only [] at h
    exact finish h
  · rw [if_neg hb1] at h
    by_cases hb2 : code = 404 ∧ req.cfgError404Help = true
    · rw [if_pos hb2] at h
      cases dd2 <;> simp at h
    · rw [if_neg hb2] at h
      by_cases hb3 : code = 406 ∧ api.default_mediatype = none
      · exfalso
        rw [h1] at hb3
        exact Option.noConfusion hb3.2
      · rw [if_neg hb3] at h
        simp only [] at h
        exact finish h

set_option maxRecDepth 100000 in
/-- C8 counterexample: an unregistered, non-sanic error with no default
handler but carrying a data attribute yields status 500 with the data as the
body, not the claimed message object: the data attribute replaces it. -/
theorem claim_c8_counterexample :
    handle_error apiC8 reqC8 errC8 = Except.ok respC8 ∧
    respC8.status = 500 ∧
    dictGet respC8.body "message" = none := by
  refine ⟨by rfl, by rfl, by rfl⟩

/-- C8 amended: for every raised exception with no registry entry, outside the
sanic HTTP family, with no default handler registered and carrying no data
attribute, handle_error produces (through a registered default media type) a
response with status 500 and body consisting of the single entry message
Internal Server Error. -/
theorem claim_c8_amended (api : ApiState) (req : Request) (e : Err) (dm : MediaType)
    (h1 : lookupHandler api.error_handlers e.cls = none)
    (h2 : e.isSanic = false)
    (h3 : api.default_error_handler = none)
    (h4 : e.data = none)
    (h5 : api.default_mediatype = some dm)
    (h6 : api.representations.contains dm = true) :
    ∃ r, handle_error api req e = Except.ok r ∧ r.status = 500 ∧
      r.body = PyVal.pdict [("message", PyVal.pstr "Internal Server Error")] := by
  have hcore : handleErrorCore api e =
      Except.ok (PyVal.pdict [("message", PyVal.pstr "Internal Server Error")],
        500, []) := by
    unfold handleErrorCore
    simp [h1, h2, h3, commonStatus]
  have hmsg : setMessageDefault
      (PyVal.pdict [("message", PyVal.pstr "Internal Server Error")]) e.asString =
      Except.ok (PyVal.pdict [("message", PyVal.pstr "Internal Server Error")]) := by
    unfold setMessageDefault
    simp [assocFind]
  obtain ⟨r, hr, hst, hbd⟩ := make_response_char api req
    (PyVal.pdict [("message", PyVal.pstr "Internal Server Error")]) 500 [] dm h5 h6
  refine ⟨r, ?_, hst, hbd⟩
  unfold handle_error
  simp only [hcore, hmsg]
  unfold handleErrorAfterCore
  simp only [h4]
  norm_num
  simp only [removeBlacklist, List.filter_nil]
  rw [hr]

/-- Witness for the amended C8: a concrete unregistered error without data
under the default configuration. -/
theorem claim_c8_witness :
    ∃ r, handle_error apiC8w reqC8w errC8w = Except.ok r ∧ r.status = 500 ∧
      r.body = PyVal.pdict [("message", PyVal.pstr "Internal Server Error")] :=
  claim_c8_amended apiC8w reqC8w errC8w "application/json"
    (by rfl) (by rfl) (by rfl) (by rfl) (by rfl) (by decide)

set_option maxRecDepth 8192 in
/-- C9 counterexample: a sanic 400 carrying a data attribute without a message
entry is rendered with that data as the whole body, so the response carries no
message field: merging the extra fields with a message is not what the code
does. -/
theorem claim_c9_counterexample :
    handle_error apiC9 reqC9 errC9 = Except.ok respC9 ∧
    dictGet respC9.body "message" = none ∧
    dictGet respC9.body "foo" = some (PyVal.pstr "bar") := by
  refine ⟨by rfl, by rfl, by rfl⟩

/-- C9 amended: for every error that handle_error resolves successfully under
a registered default media type, when the error carries no data attribute and
the resolved message value is a string (msgStringOk), the response body is a
JSON object whose message entry is that string; a present data attribute
replaces the body wholesale instead. -/
theorem claim_c9_amended (api : ApiState) (req : Request) (e : Err)
    (dm : MediaType) (r : Resp)
    (h1 : api.default_mediatype = some dm)
    (h2 : api.representations.contains dm = true)
    (h3 : e.data = none)
    (h4 : msgStringOk api e = true)
    (h5 : handle_error api req e = Except.ok r) :
    ∃ s, dictGet r.body "message" = some (PyVal.pstr s) := by
  unfold handle_error at h5
  cases hcore : handleErrorCore api e with
  | error ex =>
    rw [hcore] at h5
    simp only [] at h5
    cases h5
  | ok trip =>
    obtain ⟨dd, code, hdrs⟩ := trip
    rw [hcore] at h5
    simp only [] at h5
    cases hmsg : setMessageDefault dd e.asString with
    | error ex =>
      rw [hmsg] at h5
      simp only [] at h5
      cases h5
    | ok dd2 =>
      rw [hmsg] at h5
      simp only [] at h5
      have hstr : ∃ s, dictGet dd2 "message" = some (PyVal.pstr s) := by
        unfold msgStringOk at h4
        rw [hcore] at h4
        simp only [] at h4
        rw [hmsg] at h4
        simp only [] at h4
        cases hg : dictGet dd2 "message" with
        | none => rw [hg] at h4; cases h4
        | some v =>
          rw [hg] at h4
          cases v with
          | pstr s => exact ⟨s, rfl⟩
          | pnat n => cases h4
          | pnone => cases h4
          | pdict kvs => cases h4
      obtain ⟨s, hs⟩ := hstr
      have hbody := (afterCore_char api req e dd2 code hdrs dm r h1 h2 h3 h5).2
      rw [hbody]
      exact ⟨s, hs⟩

set_option maxRecDepth 8192 in
/-- Witness for the amended C9: a sanic 400 without data gets the reason
phrase Bad Request as its message string. -/
theorem claim_c9_witness :
    ∃ s, dictGet respC9w.body "message" = some (PyVal.pstr s) :=
  claim_c9_amended apiC9w reqC9w errC9w "application/json" respC9w
    (by rfl) (by decide) (by rfl) (by rfl) (by rfl)

/-- C10: when handle_error processes an error resolved by the sanic-family
rule to code 406 while no default media type is configured, it hands
make_response the first registered representation key (or text/plain when the
registry is empty) as fallback media type, and rendering the 406 response then
always succeeds: negotiation cannot fail again. -/
theorem claim_c10_406_fallback (api : ApiState) (req : Request) (e : Err)
    (h1 : lookupHandler api.error_handlers e.cls = none)
    (h2 : e.isSanic = true)
    (h3 : e.status_code = 406)
    (h4 : api.default_mediatype = none) :
    (∃ d, handle_error api req e =
      make_response api req d 406 [] (some (fallbackFor406 api))) ∧
    (∃ r, handle_error api req e = Except.ok r) := by
  have hcore : handleErrorCore api e =
      Except.ok (PyVal.pdict [("message", msgVal e (statusFor 406))], 406, []) := by
    unfold handleErrorCore
    rw [h1]
    simp only [h2, if_true, h3]
  have hmsg : setMessageDefault
      (PyVal.pdict [("message", msgVal e (statusFor 406))]) e.asString =
      Except.ok (PyVal.pdict [("message", msgVal e (statusFor 406))]) := by
    unfold setMessageDefault
    simp [assocFind]
  cases hde : e.data with
  | some d0 =>
    have heq : handle_error api req e =
        make_response api req d0 406 [] (some (fallbackFor406 api)) := by
      unfold handle_error
      simp only [hcore, hmsg]
      unfold handleErrorAfterCore
      simp only [hde, h4]
      norm_num
      simp only [removeBlacklist, List.filter_nil]
      cases hmr : make_response api req d0 406 [] (some (fallbackFor406 api)) with
      | error ex => rfl
      | ok resp => rfl
    obtain ⟨r, hr⟩ := make_response_usable api req d0 406 []
      (fallbackFor406 api) (fallbackFor406_usable api)
    exact ⟨⟨d0, heq⟩, ⟨r, by rw [heq, hr]⟩⟩
  | none =>
    have heq : handle_error api req e =
        make_response api req (PyVal.pdict [("message", msgVal e (statusFor 406))])
          406 [] (some (fallbackFor406 api)) := by
      unfold handle_error
      simp only [hcore, hmsg]
      unfold handleErrorAfterCore
      simp only [hde, h4]
      norm_num
      simp only [removeBlacklist, List.filter_nil]
      cases hmr : make_response api req
          (PyVal.pdict [("message", msgVal e (statusFor 406))]) 406 []
          (some (fallbackFor406 api)) with
      | error ex => rfl
      | ok resp => rfl
    obtain ⟨r, hr⟩ := make_response_usable api req
      (PyVal.pdict [("message", msgVal e (statusFor 406))]) 406 []
      (fallbackFor406 api) (fallbackFor406_usable api)
    exact ⟨⟨_, heq⟩, ⟨r, by rw [heq, hr]⟩⟩

/-- Witness for C10: the Not Acceptable error itself, handled with no default
media type configured, renders successfully. -/
theorem claim_c10_witness :
    ∃ r, handle_error apiC10w reqC10w notAcceptableErr = Except.ok r :=
  (claim_c10_406_fallback apiC10w reqC10w notAcceptableErr
    (by rfl) (by rfl) (by rfl) (by rfl)).2

end SanicRestplus
